import Mathlib

/-!
# sync-catalog command

A shallow embedding of `subcommand/sync-catalog/command.go`.

`Command.Run` is glue code: it parses flags, builds a Kubernetes clientset and a
Consul API client, starts the Consul syncer in a goroutine and then runs the
service controller.  Every collaborator that lives outside the file (the `flag`
package, `clientcmd`, `kubernetes`, the Consul HTTP flags, the controller) is a
field of `Env`; the call is embedded as a function from the receiver, the world
and the argument list to the receiver afterwards, the world afterwards, the
ordered list of calls made to collaborators, and the way the call ended.
-/

namespace SyncCatalog

/-! ## Values owned by collaborators -/

/-- A Go `error`; `Error()` yields its message. -/
structure GoError where
  msg : String
deriving DecidableEq, Repr

/-- The method `Error()` of a Go error. -/
def GoError.Error (e : GoError) : String := e.msg

/-- `fmt.Sprintf("%s", err)` for a non-nil error prints `err.Error()`. -/
def sprintfErr (before : String) (e : GoError) : String := before ++ e.Error

/-- A `*rest.Config` as returned by `clientcmd.BuildConfigFromFlags`. -/
structure RestConfig where
  tag : Nat
deriving DecidableEq, Repr

/-- A `*kubernetes.Clientset`. -/
structure Clientset where
  tag : Nat
deriving DecidableEq, Repr

/-- A Consul `*api.Client`. -/
structure ConsulClient where
  tag : Nat
deriving DecidableEq, Repr

/-- The state of a `flags.HTTPFlags`: the values assigned to its flags so far.
`&flags.HTTPFlags{}` is the empty assignment. -/
structure HTTPFlags where
  values : List (String × String)
deriving DecidableEq, Repr

/-- An `hclog.Logger`, kept symbolic: the default logger and `Named` children. -/
inductive Logger where
  | default
  | named (parent : Logger) (name : String)
deriving DecidableEq, Repr

/-- `hclog.Default()`. -/
def hclogDefault : Logger := Logger.default

/-- `Logger.Named(name)`. -/
def Logger.Named (l : Logger) (name : String) : Logger := Logger.named l name

/-- A `context.Context`.  `context.Background()` is never cancelled and has no
cancel function; `context.WithCancel` is the derivation that yields one. -/
inductive Context where
  | background
  | withCancel (parent : Context) (handle : Nat)
deriving DecidableEq, Repr

/-- `context.Background()`. -/
def contextBackground : Context := Context.background

/-- The cancel functions through which a context can be cancelled. -/
def Context.cancelHandles : Context → List Nat
  | .background => []
  | .withCancel parent handle => handle :: parent.cancelHandles

/-- Whether some holder of a cancel function can cancel the context. -/
def Context.cancellable (ctx : Context) : Bool := !ctx.cancelHandles.isEmpty

/-- Error handling modes of a `flag.FlagSet`. -/
inductive ErrorHandling where
  | continueOnError
  | exitOnError
  | panicOnError
deriving DecidableEq, Repr

/-- A `flag.FlagSet`: its name, its error handling, the names of its flags
and the arguments left after the last `Parse` (`Args()`). -/
structure FlagSet where
  name : String
  errorHandling : ErrorHandling
  formal : List String
  args : List String
deriving DecidableEq, Repr

/-- `flag.NewFlagSet(name, errorHandling)`. -/
def NewFlagSet (name : String) (eh : ErrorHandling) : FlagSet :=
  { name := name, errorHandling := eh, formal := [], args := [] }

/-- `flags.Merge(dst, src)`: defines every flag of `src` on `dst`. -/
def flagsMerge (dst : FlagSet) (src : List String) : FlagSet :=
  { dst with formal := dst.formal ++ src }

/-- `FlagSet.Args()`. -/
def FlagSet.Args (fs : FlagSet) : List String := fs.args

/-! ## The components built by `Run` -/

/-- The fields of `catalog.ConsulSyncer` that `Run` sets. -/
structure ConsulSyncer where
  Client : ConsulClient
  Log : Logger
deriving DecidableEq, Repr

/-- The fields of `catalog.ServiceResource` that `Run` sets; `Syncer` is the
address of a `ConsulSyncer`. -/
structure ServiceResource where
  Log : Logger
  Client : Clientset
  Syncer : Nat
deriving DecidableEq, Repr

/-- The fields of `controller.Controller` that `Run` sets. -/
structure Controller where
  Log : Logger
  Resource : ServiceResource
deriving DecidableEq, Repr

/-- How a call of `Controller.Run` ends, seen from its caller. -/
inductive CtlOutcome where
  | returned
  | blocksForever
  | panics (msg : String)
deriving DecidableEq, Repr

/-- What `FlagSet.Parse` leaves behind: the error it returns (if any), the flag
set (with the remaining arguments) and the HTTP flag values it assigned. -/
structure ParseResult where
  err : Option GoError
  flags : FlagSet
  http : HTTPFlags
deriving DecidableEq, Repr

/-- The collaborators of the command. -/
structure Env where
  /-- Names of the flags returned by `HTTPFlags.ClientFlags()`. -/
  clientFlags : List String
  /-- Names of the flags returned by `HTTPFlags.ServerFlags()`. -/
  serverFlags : List String
  /-- The function `flags.Usage`. -/
  usage : String → FlagSet → String
  /-- The method `FlagSet.Parse`, on a flag set bound to the HTTP flags. -/
  parse : FlagSet → HTTPFlags → List String → ParseResult
  /-- The function `clientcmd.BuildConfigFromFlags`. -/
  buildConfigFromFlags : String → String → Except GoError RestConfig
  /-- The function `kubernetes.NewForConfig`. -/
  newForConfig : RestConfig → Except GoError Clientset
  /-- The method `HTTPFlags.APIClient`. -/
  apiClient : HTTPFlags → Except GoError ConsulClient
  /-- The method `Controller.Run`, given the stop channel. -/
  controllerRun : Controller → Nat → CtlOutcome

/-- The calls `Run` makes to its collaborators, in program order. -/
inductive Event where
  | flagParse (args : List String)
  | uiError (msg : String)
  | buildConfigFromFlags (masterUrl kubeconfigPath : String)
  | newForConfig (config : RestConfig)
  | apiClient (http : HTTPFlags)
  | goSyncerRun (syncer : Nat) (ctx : Context)
  | makeChan (ch : Nat)
  | controllerRun (ctl : Controller) (stopCh : Nat)
  | controllerReturned
deriving DecidableEq, Repr

/-- How a call of `Command.Run` ends. -/
inductive Outcome where
  | exit (code : Int)
  | panicked (msg : String)
  | blocked
deriving DecidableEq, Repr

/-- What exists besides the command: the syncers allocated so far (a syncer's
address is its position) and the number of channels made so far. -/
structure World where
  syncers : List ConsulSyncer
  chans : Nat
deriving DecidableEq, Repr

/-- The struct `Command` without its `UI`, whose calls are recorded as events. -/
structure Command where
  flags : FlagSet
  http : HTTPFlags
  once : Bool
  help : String
deriving DecidableEq, Repr

/-- The constant `synopsis`. -/
def synopsis : String := "Sync Kubernetes services and Consul services."

/-- The constant `help`. -/
def help : String :=
  "\nUsage: consul-k8s sync-catalog [options]\n\n" ++
  "  Sync K8S pods, services, and more with the Consul service catalog.\n" ++
  "  This enables K8S services to discover and communicate with external\n" ++
  "  services, and allows external services to discover and communicate with\n" ++
  "  K8S services.\n\n"

/-- The method `Command.init`. -/
def Command.init (env : Env) (c : Command) : Command :=
  let flags := NewFlagSet "" ErrorHandling.continueOnError
  let http : HTTPFlags := { values := [] }
  let flags := flagsMerge flags env.clientFlags
  let flags := flagsMerge flags env.serverFlags
  { c with flags := flags, http := http, help := env.usage SyncCatalog.help flags }

/-- The call `c.once.Do(c.init)`. -/
def Command.onceDoInit (env : Env) (c : Command) : Command :=
  if c.once then c else { c.init env with once := true }

/-- The result of a call of `Run`. -/
structure RunResult where
  cmd : Command
  world : World
  trace : List Event
  outcome : Outcome
deriving DecidableEq, Repr

/-- The fixed kubeconfig path in `Run`. -/
def kubeconfigPath : String := "/Users/mitchellh/.kube/config"

/-- The method `Command.Run`. -/
def Command.Run (env : Env) (w : World) (c : Command) (args : List String) : RunResult :=
  let c := c.onceDoInit env
  let pr := env.parse c.flags c.http args
  let c := { c with flags := pr.flags, http := pr.http }
  let t := [Event.flagParse args]
  match pr.err with
  | some _ => { cmd := c, world := w, trace := t, outcome := .exit 1 }
  | none =>
    if c.flags.Args.length > 0 then
      { cmd := c, world := w,
        trace := t ++ [.uiError "Should have no non-flag arguments."],
        outcome := .exit 1 }
    else
      let t := t ++ [.buildConfigFromFlags "" kubeconfigPath]
      match env.buildConfigFromFlags "" kubeconfigPath with
      | .error err => { cmd := c, world := w, trace := t, outcome := .panicked err.Error }
      | .ok config =>
        let t := t ++ [.newForConfig config]
        match env.newForConfig config with
        | .error err => { cmd := c, world := w, trace := t, outcome := .panicked err.Error }
        | .ok clientset =>
          let t := t ++ [.apiClient c.http]
          match env.apiClient c.http with
          | .error err =>
            { cmd := c, world := w,
              trace := t ++ [.uiError (sprintfErr "Error connecting to Consul agent: " err)],
              outcome := .exit 1 }
          | .ok consulClient =>
            let syncer : ConsulSyncer :=
              { Client := consulClient, Log := hclogDefault.Named "syncer/consul" }
            let syncerAddr := w.syncers.length
            let w := { w with syncers := w.syncers ++ [syncer] }
            let t := t ++ [.goSyncerRun syncerAddr contextBackground]
            let ctl : Controller :=
              { Log := hclogDefault.Named "controller/service",
                Resource :=
                  { Log := hclogDefault.Named "controller/service",
                    Client := clientset,
                    Syncer := syncerAddr } }
            let stopCh := w.chans
            let w := { w with chans := w.chans + 1 }
            let t := t ++ [.makeChan stopCh, .controllerRun ctl stopCh]
            match env.controllerRun ctl stopCh with
            | .returned =>
              { cmd := c, world := w, trace := t ++ [.controllerReturned], outcome := .exit 0 }
            | .blocksForever => { cmd := c, world := w, trace := t, outcome := .blocked }
            | .panics msg => { cmd := c, world := w, trace := t, outcome := .panicked msg }

/-- The method `Command.Synopsis`. -/
def Command.Synopsis (_c : Command) : String := synopsis

/-- The method `Command.Help`: the command afterwards and the text returned. -/
def Command.Help (env : Env) (c : Command) : Command × String :=
  let c := c.onceDoInit env
  (c, c.help)

/-- What `c.flags.Parse(args)` leaves behind in `Run`, after `c.once.Do(c.init)`. -/
def Command.parsed (env : Env) (c : Command) (args : List String) : ParseResult :=
  env.parse (c.onceDoInit env).flags (c.onceDoInit env).http args

/-- The receiver once `Run` has parsed its arguments. -/
def Command.afterParse (env : Env) (c : Command) (args : List String) : Command :=
  { c.onceDoInit env with
    flags := (c.parsed env args).flags, http := (c.parsed env args).http }

/-- The arguments pass the two checks at the top of `Run`: parsing returns no
error and no non-flag argument is left. -/
def Command.argsValid (env : Env) (c : Command) (args : List String) : Prop :=
  (c.parsed env args).err = none ∧ (c.parsed env args).flags.Args = []

/-- Is the event `go syncer.Run(ctx)`? -/
def Event.isGoSyncerRun : Event → Bool
  | .goSyncerRun _ _ => true
  | _ => false

/-- Is the event a call of `Controller.Run`? -/
def Event.isControllerRun : Event → Bool
  | .controllerRun _ _ => true
  | _ => false

/-- Is the event a call of `UI.Error`? -/
def Event.isUiError : Event → Bool
  | .uiError _ => true
  | _ => false

/-- Is the event a call of the kubeconfig loader? -/
def Event.isBuildConfig : Event → Bool
  | .buildConfigFromFlags _ _ => true
  | _ => false

/-- Is the event one of the three calls that build a client? -/
def Event.isClientBuild : Event → Bool
  | .buildConfigFromFlags _ _ => true
  | .newForConfig _ => true
  | .apiClient _ => true
  | _ => false

/-- Does the event mention a channel? -/
def Event.isChan : Event → Bool
  | .makeChan _ => true
  | .controllerRun _ _ => true
  | _ => false

/-- The syncer that `Run` builds on a Consul client. -/
def builtSyncer (consulClient : ConsulClient) : ConsulSyncer :=
  { Client := consulClient, Log := hclogDefault.Named "syncer/consul" }

/-- The controller that `Run` builds on a clientset and a syncer address. -/
def builtController (clientset : Clientset) (syncerAddr : Nat) : Controller :=
  { Log := hclogDefault.Named "controller/service",
    Resource :=
      { Log := hclogDefault.Named "controller/service",
        Client := clientset,
        Syncer := syncerAddr } }

/-- The trace suffix and outcome contributed by `ctl.Run(stopCh)`. -/
def afterController : CtlOutcome → List Event × Outcome
  | .returned => ([.controllerReturned], .exit 0)
  | .blocksForever => ([], .blocked)
  | .panics msg => ([], .panicked msg)

/-! ## A concrete environment -/

/-- A small flag parser: `-stale` is a defined boolean flag, any other
argument starting the list with a dash is undefined, and parsing stops at the
first other argument. -/
def demoParse (fs : FlagSet) (http : HTTPFlags) : List String → ParseResult
  | [] => { err := none, flags := { fs with args := [] }, http := http }
  | a :: rest =>
    if a = "-stale" then
      demoParse fs { values := http.values ++ [("stale", "true")] } rest
    else if a = "-workers=4" then
      { err := some { msg := "flag provided but not defined: -workers" },
        flags := { fs with args := rest }, http := http }
    else
      { err := none, flags := { fs with args := a :: rest }, http := http }

/-- An environment in which every collaborator succeeds and the controller
returns. -/
def demoEnv : Env where
  clientFlags := ["ca-file", "ca-path", "client-cert", "client-key", "http-addr",
    "tls-server-name", "token", "token-file"]
  serverFlags := ["datacenter", "stale"]
  usage := fun text _ => text
  parse := demoParse
  buildConfigFromFlags := fun _ _ => .ok { tag := 1 }
  newForConfig := fun cfg => .ok { tag := cfg.tag + 1 }
  apiClient := fun http => .ok { tag := http.values.length }
  controllerRun := fun _ _ => .returned

/-- The zero value of `Command`. -/
def zeroCommand : Command :=
  { flags := { name := "", errorHandling := .continueOnError, formal := [], args := [] },
    http := { values := [] }, once := false, help := "" }

/-- A world with nothing allocated. -/
def emptyWorld : World := { syncers := [], chans := 0 }

/-- The client setup of `Run` fails: the kubeconfig cannot be loaded, the
clientset cannot be built from the loaded configuration, or the Consul API
client cannot be built from the parsed HTTP flags. -/
def Command.setupFails (env : Env) (c : Command) (args : List String) : Prop :=
  (∃ e, env.buildConfigFromFlags "" kubeconfigPath = .error e) ∨
  (∃ config e, env.buildConfigFromFlags "" kubeconfigPath = .ok config ∧
    env.newForConfig config = .error e) ∨
  (∃ e, env.apiClient (c.parsed env args).http = .error e)

/-- The client setup of `Run` succeeds with the given clients. -/
def Command.setupOk (env : Env) (c : Command) (args : List String)
    (config : RestConfig) (clientset : Clientset) (consulClient : ConsulClient) : Prop :=
  env.buildConfigFromFlags "" kubeconfigPath = .ok config ∧
  env.newForConfig config = .ok clientset ∧
  env.apiClient (c.parsed env args).http = .ok consulClient

/-- Is the event a call of `HTTPFlags.APIClient`? -/
def Event.isApiClient : Event → Bool
  | .apiClient _ => true
  | _ => false

/-- The demo environment with an unreachable Consul agent. -/
def consulDownEnv : Env :=
  { demoEnv with apiClient := fun _ => .error { msg := "connection refused" } }

/-- The demo environment without a readable kubeconfig. -/
def noKubeconfigEnv : Env :=
  { demoEnv with buildConfigFromFlags := fun _ _ => .error { msg := "no such file" } }

/-! ## The reconciliation pass of the syncer

The package `catalog`, which holds `ConsulSyncer.Run`, is not part of the
sources; the pass is modelled from section 4.3 of the specification. -/

/-- Modelled from the spec: the `CatalogRegistration` of section 3 (the code of
`catalog.ConsulSyncer` is missing), with the ownership marker of its metadata
as a flag. -/
structure CatalogRegistration where
  ID : String
  Name : String
  Address : String
  Port : Nat
  Tags : List String
  ownerMarker : Bool
deriving DecidableEq, Repr

/-- Modelled from the spec: the Desired-State Store of section 3 (missing
package `catalog`), a mapping from service key to registration, read as a
snapshot. -/
abbrev DesiredState := List (String × CatalogRegistration)

/-- Modelled from the spec: the external catalog (missing package `catalog` and
the Consul agent behind it), as the list of its entries. -/
abbrev Catalog := List CatalogRegistration

/-- Modelled from the spec: the entry the syncer writes for a desired key
(missing package `catalog`); its ID is the deterministic function `serviceID`
of the key and it bears the ownership marker. -/
def desiredEntry (serviceID : String → String) (kv : String × CatalogRegistration) :
    CatalogRegistration :=
  { kv.2 with ID := serviceID kv.1, ownerMarker := true }

/-- Modelled from the spec: step 1 of the pass in section 4.3 (missing
`ConsulSyncer.Run`), the catalog entries carrying the ownership marker. -/
def actualSnapshot (catalog : Catalog) : Catalog :=
  catalog.filter (fun e => e.ownerMarker)

/-- Modelled from the spec: the `ConflictError` of section 7 (missing package
`catalog`), a catalog entry with this ID lacks the ownership marker. -/
def conflicts (catalog : Catalog) (id : String) : Bool :=
  catalog.any (fun e => decide (e.ID = id) && !e.ownerMarker)

/-- Modelled from the spec: step 3 of the pass (missing `ConsulSyncer.Run`),
the desired entries absent from or differing in the actual snapshot, conflicts
skipped. -/
def registrations (serviceID : String → String) (desired : DesiredState)
    (catalog : Catalog) : List CatalogRegistration :=
  (desired.map (desiredEntry serviceID)).filter
    (fun r => !decide (r ∈ actualSnapshot catalog) && !conflicts catalog r.ID)

/-- Modelled from the spec: step 4 of the pass (missing `ConsulSyncer.Run`),
the IDs of the owned actual entries whose key is absent from the desired state. -/
def deregistrations (serviceID : String → String) (desired : DesiredState)
    (catalog : Catalog) : List String :=
  ((actualSnapshot catalog).filter
    (fun e => !desired.any (fun kv => decide (serviceID kv.1 = e.ID)))).map (fun e => e.ID)

/-- Modelled from the spec: the write calls of the External Catalog Client of
section 4.4 (missing package `catalog`). -/
inductive CatalogCall where
  | register (entry : CatalogRegistration)
  | deregister (id : String)
deriving DecidableEq, Repr

/-- Modelled from the spec: the calls one pass issues (missing
`ConsulSyncer.Run`), the registrations of step 3, then the deregistrations of
step 4. -/
def passCalls (serviceID : String → String) (desired : DesiredState) (catalog : Catalog) :
    List CatalogCall :=
  (registrations serviceID desired catalog).map CatalogCall.register ++
    (deregistrations serviceID desired catalog).map CatalogCall.deregister

/-- Modelled from the spec: the effect of one call on the catalog (missing
Consul agent); a call that fails is skipped (step 5), a register overwrites the
entry with the same ID, a deregister removes it. -/
def applyCall (fails : CatalogCall → Bool) (catalog : Catalog) (call : CatalogCall) :
    Catalog :=
  if fails call then catalog
  else
    match call with
    | .register entry => catalog.filter (fun e => decide (e.ID ≠ entry.ID)) ++ [entry]
    | .deregister id => catalog.filter (fun e => decide (e.ID ≠ id))

/-- Modelled from the spec: one reconciliation pass (missing
`ConsulSyncer.Run`), the catalog after the calls of the pass. -/
def reconcilePass (fails : CatalogCall → Bool) (serviceID : String → String)
    (desired : DesiredState) (catalog : Catalog) : Catalog :=
  (passCalls serviceID desired catalog).foldl (applyCall fails) catalog

/-- Whether a call writes the entry with the given ID. -/
def CatalogCall.touches (id : String) : CatalogCall → Bool
  | .register entry => decide (entry.ID = id)
  | .deregister id2 => decide (id2 = id)

/-- A desired state with one service. -/
def demoDesired : DesiredState :=
  [("default/web",
    { ID := "", Name := "web", Address := "10.0.0.1", Port := 8080, Tags := ["web"],
      ownerMarker := false })]

/-- A catalog with a stale owned entry and a foreign entry. -/
def demoCatalog : Catalog :=
  [{ ID := "k8s-default/old", Name := "old", Address := "10.0.0.9", Port := 80, Tags := [],
     ownerMarker := true },
   { ID := "db", Name := "db", Address := "10.1.0.1", Port := 5432, Tags := [],
     ownerMarker := false }]

/-- A service ID derived from the key. -/
def demoServiceID (key : String) : String := "k8s-" ++ key

/-! ## The paths through `Run` -/

theorem run_parse_error (env : Env) (w : World) (c : Command) (args : List String)
    (e : GoError) (h : (c.parsed env args).err = some e) :
    c.Run env w args =
      { cmd := c.afterParse env args, world := w, trace := [.flagParse args],
        outcome := .exit 1 } := by
  simp only [Command.parsed] at h
  simp [Command.Run, Command.afterParse, Command.parsed, h]

theorem run_nonflag (env : Env) (w : World) (c : Command) (args : List String)
    (h : (c.parsed env args).err = none) (hargs : (c.parsed env args).flags.Args ≠ []) :
    c.Run env w args =
      { cmd := c.afterParse env args, world := w,
        trace := [.flagParse args, .uiError "Should have no non-flag arguments."],
        outcome := .exit 1 } := by
  simp only [Command.parsed] at h hargs
  have hpos : 0 < (env.parse (c.onceDoInit env).flags (c.onceDoInit env).http args).flags.Args.length :=
    List.length_pos.mpr hargs
  simp [Command.Run, Command.afterParse, Command.parsed, h, hpos]

theorem run_config_error (env : Env) (w : World) (c : Command) (args : List String)
    (hv : c.argsValid env args) (e : GoError)
    (h : env.buildConfigFromFlags "" kubeconfigPath = .error e) :
    c.Run env w args =
      { cmd := c.afterParse env args, world := w,
        trace := [.flagParse args, .buildConfigFromFlags "" kubeconfigPath],
        outcome := .panicked e.Error } := by
  obtain ⟨h1, h2⟩ := hv
  simp only [Command.parsed] at h1 h2
  simp [Command.Run, Command.afterParse, Command.parsed, h1, h2, h]

theorem run_clientset_error (env : Env) (w : World) (c : Command) (args : List String)
    (hv : c.argsValid env args) (config : RestConfig) (e : GoError)
    (hc : env.buildConfigFromFlags "" kubeconfigPath = .ok config)
    (h : env.newForConfig config = .error e) :
    c.Run env w args =
      { cmd := c.afterParse env args, world := w,
        trace := [.flagParse args, .buildConfigFromFlags "" kubeconfigPath,
          .newForConfig config],
        outcome := .panicked e.Error } := by
  obtain ⟨h1, h2⟩ := hv
  simp only [Command.parsed] at h1 h2
  simp [Command.Run, Command.afterParse, Command.parsed, h1, h2, hc, h]

theorem run_consul_error (env : Env) (w : World) (c : Command) (args : List String)
    (hv : c.argsValid env args) (config : RestConfig) (clientset : Clientset) (e : GoError)
    (hc : env.buildConfigFromFlags "" kubeconfigPath = .ok config)
    (hk : env.newForConfig config = .ok clientset)
    (h : env.apiClient (c.parsed env args).http = .error e) :
    c.Run env w args =
      { cmd := c.afterParse env args, world := w,
        trace := [.flagParse args, .buildConfigFromFlags "" kubeconfigPath,
          .newForConfig config, .apiClient (c.parsed env args).http,
          .uiError ("Error connecting to Consul agent: " ++ e.Error)],
        outcome := .exit 1 } := by
  obtain ⟨h1, h2⟩ := hv
  simp only [Command.parsed] at h1 h2 h
  simp [Command.Run, Command.afterParse, Command.parsed, h1, h2, hc, hk, h, sprintfErr]

theorem run_started (env : Env) (w : World) (c : Command) (args : List String)
    (hv : c.argsValid env args) (config : RestConfig) (clientset : Clientset)
    (consulClient : ConsulClient)
    (hc : env.buildConfigFromFlags "" kubeconfigPath = .ok config)
    (hk : env.newForConfig config = .ok clientset)
    (h : env.apiClient (c.parsed env args).http = .ok consulClient) :
    c.Run env w args =
      { cmd := c.afterParse env args,
        world := { syncers := w.syncers ++ [builtSyncer consulClient], chans := w.chans + 1 },
        trace := [.flagParse args, .buildConfigFromFlags "" kubeconfigPath,
          .newForConfig config, .apiClient (c.parsed env args).http,
          .goSyncerRun w.syncers.length contextBackground,
          .makeChan w.chans,
          .controllerRun (builtController clientset w.syncers.length) w.chans] ++
          (afterController
            (env.controllerRun (builtController clientset w.syncers.length) w.chans)).1,
        outcome := (afterController
            (env.controllerRun (builtController clientset w.syncers.length) w.chans)).2 } := by
  obtain ⟨h1, h2⟩ := hv
  simp only [Command.parsed] at h1 h2 h
  simp only [Command.Run, Command.afterParse, Command.parsed, h1, h2, hc, hk, h, builtSyncer,
    builtController]
  cases hr : env.controllerRun
      { Log := hclogDefault.Named "controller/service",
        Resource :=
          { Log := hclogDefault.Named "controller/service",
            Client := clientset,
            Syncer := w.syncers.length } } w.chans <;>
    simp [afterController, hr]

/-- Every call of `Run` takes one of six paths. -/
theorem run_cases (env : Env) (c : Command) (args : List String) :
    (∃ e, (c.parsed env args).err = some e) ∨
    ((c.parsed env args).err = none ∧ (c.parsed env args).flags.Args ≠ []) ∨
    (c.argsValid env args ∧ ∃ e, env.buildConfigFromFlags "" kubeconfigPath = .error e) ∨
    (c.argsValid env args ∧ ∃ config e,
      env.buildConfigFromFlags "" kubeconfigPath = .ok config ∧
      env.newForConfig config = .error e) ∨
    (c.argsValid env args ∧ ∃ config clientset e,
      env.buildConfigFromFlags "" kubeconfigPath = .ok config ∧
      env.newForConfig config = .ok clientset ∧
      env.apiClient (c.parsed env args).http = .error e) ∨
    (c.argsValid env args ∧ ∃ config clientset consulClient,
      c.setupOk env args config clientset consulClient) := by
  cases h1 : (c.parsed env args).err with
  | some e => exact Or.inl ⟨e, rfl⟩
  | none =>
    by_cases h2 : (c.parsed env args).flags.Args = []
    · have hv : c.argsValid env args := ⟨h1, h2⟩
      cases hc : env.buildConfigFromFlags "" kubeconfigPath with
      | error e => exact Or.inr (Or.inr (Or.inl ⟨hv, e, rfl⟩))
      | ok config =>
        cases hk : env.newForConfig config with
        | error e =>
          refine Or.inr (Or.inr (Or.inr (Or.inl ⟨hv, config, e, ?_, ?_⟩))) <;>
            first | rfl | assumption
        | ok clientset =>
          cases ha : env.apiClient (c.parsed env args).http with
          | error e =>
            refine Or.inr (Or.inr (Or.inr (Or.inr (Or.inl
              ⟨hv, config, clientset, e, ?_, ?_, ?_⟩)))) <;> first | rfl | assumption
          | ok consulClient =>
            refine Or.inr (Or.inr (Or.inr (Or.inr (Or.inr
              ⟨hv, config, clientset, consulClient, ?_, ?_, ?_⟩)))) <;>
              first | rfl | assumption
    · exact Or.inr (Or.inl ⟨rfl, h2⟩)

/-- C1: when a client to either registry cannot be established (the kubeconfig
cannot be loaded, the clientset cannot be built, or the Consul API client cannot
be built), `Run` starts no syncer task, never calls `Controller.Run` and does
not return exit status 0. -/
theorem C1_setup_failure_not_recovered (env : Env) (w : World) (c : Command)
    (args : List String) (h : c.setupFails env args) :
    (∀ ev ∈ (c.Run env w args).trace, ev.isGoSyncerRun = false ∧ ev.isControllerRun = false) ∧
    (c.Run env w args).outcome ≠ .exit 0 := by
  rcases run_cases env c args with ⟨e, he⟩ | ⟨h1, h2⟩ | ⟨hv, e, he⟩ | ⟨hv, config, e, hc, he⟩ |
    ⟨hv, config, clientset, e, hc, hk, he⟩ | ⟨hv, config, clientset, consulClient, hc, hk, ha⟩
  · rw [run_parse_error env w c args e he]
    simp [Event.isGoSyncerRun, Event.isControllerRun]
  · rw [run_nonflag env w c args h1 h2]
    simp [Event.isGoSyncerRun, Event.isControllerRun]
  · rw [run_config_error env w c args hv e he]
    simp [Event.isGoSyncerRun, Event.isControllerRun]
  · rw [run_clientset_error env w c args hv config e hc he]
    simp [Event.isGoSyncerRun, Event.isControllerRun]
  · rw [run_consul_error env w c args hv config clientset e hc hk he]
    simp [Event.isGoSyncerRun, Event.isControllerRun]
  · exfalso
    rcases h with ⟨e, he⟩ | ⟨config2, e, hc2, he⟩ | ⟨e, he⟩
    · rw [hc] at he; cases he
    · rw [hc] at hc2
      cases hc2
      rw [hk] at he; cases he
    · rw [ha] at he; cases he

theorem C1_witness :
    zeroCommand.setupFails consulDownEnv [] ∧
    ((∀ ev ∈ (zeroCommand.Run consulDownEnv emptyWorld []).trace,
        ev.isGoSyncerRun = false ∧ ev.isControllerRun = false) ∧
      (zeroCommand.Run consulDownEnv emptyWorld []).outcome ≠ .exit 0) :=
  ⟨Or.inr (Or.inr ⟨{ msg := "connection refused" }, rfl⟩),
   C1_setup_failure_not_recovered consulDownEnv emptyWorld zeroCommand []
     (Or.inr (Or.inr ⟨{ msg := "connection refused" }, rfl⟩))⟩

/-- C2: when flag parsing fails or a non-flag argument is left after parsing,
`Run` returns 1 having built no client and started neither the syncer nor the
controller; when parsing succeeded and a non-flag argument is left, the calls of
`UI.Error` are exactly one call with "Should have no non-flag arguments.". -/
theorem C2_invalid_arguments (env : Env) (w : World) (c : Command) (args : List String)
    (h : (c.parsed env args).err ≠ none ∨ (c.parsed env args).flags.Args ≠ []) :
    (c.Run env w args).outcome = .exit 1 ∧
    (∀ ev ∈ (c.Run env w args).trace,
      ev.isClientBuild = false ∧ ev.isGoSyncerRun = false ∧ ev.isControllerRun = false) ∧
    ((c.parsed env args).err = none →
      (c.Run env w args).trace.filter Event.isUiError =
        [.uiError "Should have no non-flag arguments."]) := by
  rcases run_cases env c args with ⟨e, he⟩ | ⟨h1, h2⟩ | ⟨hv, _⟩ | ⟨hv, _⟩ | ⟨hv, _⟩ | ⟨hv, _⟩
  · rw [run_parse_error env w c args e he]
    simp [Event.isGoSyncerRun, Event.isControllerRun, Event.isClientBuild, he]
  · rw [run_nonflag env w c args h1 h2]
    simp [Event.isGoSyncerRun, Event.isControllerRun, Event.isClientBuild, Event.isUiError]
  all_goals
    exfalso
    rcases h with h | h
    · exact h hv.1
    · exact h hv.2

theorem C2_witness :
    ((zeroCommand.parsed demoEnv ["extra"]).err ≠ none ∨
      (zeroCommand.parsed demoEnv ["extra"]).flags.Args ≠ []) ∧
    ((zeroCommand.Run demoEnv emptyWorld ["extra"]).outcome = .exit 1 ∧
      (∀ ev ∈ (zeroCommand.Run demoEnv emptyWorld ["extra"]).trace,
        ev.isClientBuild = false ∧ ev.isGoSyncerRun = false ∧ ev.isControllerRun = false) ∧
      ((zeroCommand.parsed demoEnv ["extra"]).err = none →
        (zeroCommand.Run demoEnv emptyWorld ["extra"]).trace.filter Event.isUiError =
          [.uiError "Should have no non-flag arguments."])) :=
  ⟨Or.inr (by decide),
   C2_invalid_arguments demoEnv emptyWorld zeroCommand ["extra"] (Or.inr (by decide))⟩

/-- C8: when the arguments parse with no non-flag argument, both Kubernetes
steps succeed and building the Consul API client returns the error `e`, the
calls of `UI.Error` are exactly one call with "Error connecting to Consul
agent: " followed by the message of `e`, `Run` returns 1 and has started
neither the syncer task nor the controller. -/
theorem C8_consul_client_error (env : Env) (w : World) (c : Command) (args : List String)
    (config : RestConfig) (clientset : Clientset) (e : GoError)
    (hv : c.argsValid env args)
    (hc : env.buildConfigFromFlags "" kubeconfigPath = .ok config)
    (hk : env.newForConfig config = .ok clientset)
    (he : env.apiClient (c.parsed env args).http = .error e) :
    (c.Run env w args).trace.filter Event.isUiError =
      [.uiError ("Error connecting to Consul agent: " ++ e.Error)] ∧
    (c.Run env w args).outcome = .exit 1 ∧
    (∀ ev ∈ (c.Run env w args).trace,
      ev.isGoSyncerRun = false ∧ ev.isControllerRun = false) := by
  rw [run_consul_error env w c args hv config clientset e hc hk he]
  simp [Event.isGoSyncerRun, Event.isControllerRun, Event.isUiError]

theorem C8_witness :
    zeroCommand.argsValid consulDownEnv [] ∧
    consulDownEnv.buildConfigFromFlags "" kubeconfigPath = .ok { tag := 1 } ∧
    consulDownEnv.newForConfig { tag := 1 } = .ok { tag := 2 } ∧
    consulDownEnv.apiClient (zeroCommand.parsed consulDownEnv []).http =
      .error { msg := "connection refused" } ∧
    ((zeroCommand.Run consulDownEnv emptyWorld []).trace.filter Event.isUiError =
        [.uiError ("Error connecting to Consul agent: " ++
          GoError.Error { msg := "connection refused" })] ∧
      (zeroCommand.Run consulDownEnv emptyWorld []).outcome = .exit 1 ∧
      (∀ ev ∈ (zeroCommand.Run consulDownEnv emptyWorld []).trace,
        ev.isGoSyncerRun = false ∧ ev.isControllerRun = false)) :=
  ⟨⟨rfl, rfl⟩, rfl, rfl, rfl,
   C8_consul_client_error consulDownEnv emptyWorld zeroCommand [] { tag := 1 } { tag := 2 }
     { msg := "connection refused" } ⟨rfl, rfl⟩ rfl rfl rfl⟩

/-- C9: for arguments that pass validation the kubeconfig loader is called,
and when loading the kubeconfig or building the clientset fails with the error
`e`, `Run` panics with the message of `e` and calls `UI.Error` not at all; and
whenever `Run` returns an exit status on such arguments, the status is 0 or 1
and both Kubernetes steps succeeded. -/
theorem C9_kubernetes_failure_panics (env : Env) (w : World) (c : Command)
    (args : List String) (hv : c.argsValid env args) :
    Event.buildConfigFromFlags "" kubeconfigPath ∈ (c.Run env w args).trace ∧
    (∀ e, (env.buildConfigFromFlags "" kubeconfigPath = .error e ∨
        ∃ config, env.buildConfigFromFlags "" kubeconfigPath = .ok config ∧
          env.newForConfig config = .error e) →
      (c.Run env w args).outcome = .panicked e.Error ∧
      ∀ ev ∈ (c.Run env w args).trace, ev.isUiError = false) ∧
    (∀ n, (c.Run env w args).outcome = .exit n →
      (n = 0 ∨ n = 1) ∧
      ∃ config clientset, env.buildConfigFromFlags "" kubeconfigPath = .ok config ∧
        env.newForConfig config = .ok clientset) := by
  refine ⟨?_, ?_, ?_⟩
  · rcases run_cases env c args with ⟨e, he⟩ | ⟨_, h2⟩ | ⟨_, e, he⟩ | ⟨_, config, e, hc, he⟩ |
      ⟨_, config, clientset, e, hc, hk, he⟩ | ⟨_, config, clientset, consulClient, hc, hk, ha⟩
    · rw [hv.1] at he; cases he
    · exact absurd hv.2 h2
    · rw [run_config_error env w c args hv e he]; simp
    · rw [run_clientset_error env w c args hv config e hc he]; simp
    · rw [run_consul_error env w c args hv config clientset e hc hk he]; simp
    · rw [run_started env w c args hv config clientset consulClient hc hk ha]; simp
  · intro e h
    rcases h with h | ⟨config, hc, h⟩
    · rw [run_config_error env w c args hv e h]
      simp [Event.isUiError]
    · rw [run_clientset_error env w c args hv config e hc h]
      simp [Event.isUiError]
  · intro n hn
    rcases run_cases env c args with ⟨e, he⟩ | ⟨_, h2⟩ | ⟨_, e, he⟩ | ⟨_, config, e, hc, he⟩ |
      ⟨_, config, clientset, e, hc, hk, he⟩ | ⟨_, config, clientset, consulClient, hc, hk, ha⟩
    · rw [hv.1] at he; cases he
    · exact absurd hv.2 h2
    · rw [run_config_error env w c args hv e he] at hn; cases hn
    · rw [run_clientset_error env w c args hv config e hc he] at hn; cases hn
    · rw [run_consul_error env w c args hv config clientset e hc hk he] at hn
      cases hn
      exact ⟨Or.inr rfl, config, clientset, hc, hk⟩
    · rw [run_started env w c args hv config clientset consulClient hc hk ha] at hn
      refine ⟨?_, config, clientset, hc, hk⟩
      cases hr : env.controllerRun (builtController clientset w.syncers.length) w.chans <;>
        rw [hr] at hn <;> simp [afterController] at hn
      exact Or.inl hn.symm

theorem C9_witness :
    zeroCommand.argsValid noKubeconfigEnv [] ∧
    (Event.buildConfigFromFlags "" kubeconfigPath ∈
      (zeroCommand.Run noKubeconfigEnv emptyWorld []).trace ∧
    (∀ e, (noKubeconfigEnv.buildConfigFromFlags "" kubeconfigPath = .error e ∨
        ∃ config, noKubeconfigEnv.buildConfigFromFlags "" kubeconfigPath = .ok config ∧
          noKubeconfigEnv.newForConfig config = .error e) →
      (zeroCommand.Run noKubeconfigEnv emptyWorld []).outcome = .panicked e.Error ∧
      ∀ ev ∈ (zeroCommand.Run noKubeconfigEnv emptyWorld []).trace, ev.isUiError = false) ∧
    (∀ n, (zeroCommand.Run noKubeconfigEnv emptyWorld []).outcome = .exit n →
      (n = 0 ∨ n = 1) ∧
      ∃ config clientset,
        noKubeconfigEnv.buildConfigFromFlags "" kubeconfigPath = .ok config ∧
        noKubeconfigEnv.newForConfig config = .ok clientset)) :=
  ⟨⟨rfl, rfl⟩, C9_kubernetes_failure_panics noKubeconfigEnv emptyWorld zeroCommand []
    ⟨rfl, rfl⟩⟩

/-- C10: for every two calls of `Run` whose arguments pass validation, whatever
the environments, receivers and argument lists, the kubeconfig loader is called
exactly once, with the empty master URL and the path
"/Users/mitchellh/.kube/config", hence with the same arguments in both. -/
theorem C10_kubeconfig_request_fixed (env₁ env₂ : Env) (w₁ w₂ : World) (c₁ c₂ : Command)
    (args₁ args₂ : List String)
    (h₁ : c₁.argsValid env₁ args₁) (h₂ : c₂.argsValid env₂ args₂) :
    (c₁.Run env₁ w₁ args₁).trace.filter Event.isBuildConfig =
      [.buildConfigFromFlags "" "/Users/mitchellh/.kube/config"] ∧
    (c₂.Run env₂ w₂ args₂).trace.filter Event.isBuildConfig =
      (c₁.Run env₁ w₁ args₁).trace.filter Event.isBuildConfig := by
  have key : ∀ (env : Env) (w : World) (c : Command) (args : List String),
      c.argsValid env args →
      (c.Run env w args).trace.filter Event.isBuildConfig =
        [.buildConfigFromFlags "" "/Users/mitchellh/.kube/config"] := by
    intro env w c args hv
    rcases run_cases env c args with ⟨e, he⟩ | ⟨_, h2⟩ | ⟨_, e, he⟩ | ⟨_, config, e, hc, he⟩ |
      ⟨_, config, clientset, e, hc, hk, he⟩ | ⟨_, config, clientset, consulClient, hc, hk, ha⟩
    · rw [hv.1] at he; cases he
    · exact absurd hv.2 h2
    · rw [run_config_error env w c args hv e he]
      simp [Event.isBuildConfig, kubeconfigPath]
    · rw [run_clientset_error env w c args hv config e hc he]
      simp [Event.isBuildConfig, kubeconfigPath]
    · rw [run_consul_error env w c args hv config clientset e hc hk he]
      simp [Event.isBuildConfig, kubeconfigPath]
    · rw [run_started env w c args hv config clientset consulClient hc hk ha]
      cases hr : env.controllerRun (builtController clientset w.syncers.length) w.chans <;>
        simp [Event.isBuildConfig, kubeconfigPath, afterController]
  rw [key env₁ w₁ c₁ args₁ h₁, key env₂ w₂ c₂ args₂ h₂]
  exact ⟨rfl, rfl⟩

theorem C10_witness :
    zeroCommand.argsValid demoEnv [] ∧ zeroCommand.argsValid consulDownEnv ["-stale"] ∧
    ((zeroCommand.Run demoEnv emptyWorld []).trace.filter Event.isBuildConfig =
        [.buildConfigFromFlags "" "/Users/mitchellh/.kube/config"] ∧
      (zeroCommand.Run consulDownEnv emptyWorld ["-stale"]).trace.filter Event.isBuildConfig =
        (zeroCommand.Run demoEnv emptyWorld []).trace.filter Event.isBuildConfig) :=
  ⟨⟨rfl, rfl⟩, ⟨by decide, by decide⟩,
   C10_kubeconfig_request_fixed demoEnv consulDownEnv emptyWorld emptyWorld zeroCommand
     zeroCommand [] ["-stale"] ⟨rfl, rfl⟩ ⟨by decide, by decide⟩⟩

/-- C4: whenever `Run` returns 0, `Controller.Run` was called exactly once,
that call returned, and its return is the last thing that happened before `Run`
returned: the trace ends with the call followed by its return, and nothing
before the call is a call or a return of `Controller.Run`. -/
theorem C4_returns_zero_after_controller (env : Env) (w : World) (c : Command)
    (args : List String) (h : (c.Run env w args).outcome = .exit 0) :
    ((c.Run env w args).trace.filter Event.isControllerRun).length = 1 ∧
    ∃ ctl stopCh before,
      (c.Run env w args).trace = before ++ [.controllerRun ctl stopCh, .controllerReturned] ∧
      (∀ ev ∈ before, ev.isControllerRun = false ∧ ev ≠ .controllerReturned) ∧
      env.controllerRun ctl stopCh = .returned := by
  rcases run_cases env c args with ⟨e, he⟩ | ⟨h1, h2⟩ | ⟨hv, e, he⟩ | ⟨hv, config, e, hc, he⟩ |
    ⟨hv, config, clientset, e, hc, hk, he⟩ | ⟨hv, config, clientset, consulClient, hc, hk, ha⟩
  · rw [run_parse_error env w c args e he] at h; cases h
  · rw [run_nonflag env w c args h1 h2] at h; cases h
  · rw [run_config_error env w c args hv e he] at h; cases h
  · rw [run_clientset_error env w c args hv config e hc he] at h; cases h
  · rw [run_consul_error env w c args hv config clientset e hc hk he] at h; cases h
  · rw [run_started env w c args hv config clientset consulClient hc hk ha] at h ⊢
    cases hr : env.controllerRun (builtController clientset w.syncers.length) w.chans
    · refine ⟨by simp [afterController, Event.isControllerRun], ?_⟩
      refine ⟨builtController clientset w.syncers.length, w.chans,
        [.flagParse args, .buildConfigFromFlags "" kubeconfigPath, .newForConfig config,
          .apiClient (c.parsed env args).http,
          .goSyncerRun w.syncers.length contextBackground, .makeChan w.chans], ?_, ?_, hr⟩
      · simp [afterController]
      · simp [Event.isControllerRun]
    · rw [hr] at h; simp [afterController] at h
    · rw [hr] at h; simp [afterController] at h

theorem C4_witness :
    (zeroCommand.Run demoEnv emptyWorld []).outcome = .exit 0 ∧
    (((zeroCommand.Run demoEnv emptyWorld []).trace.filter Event.isControllerRun).length = 1 ∧
      ∃ ctl stopCh before,
        (zeroCommand.Run demoEnv emptyWorld []).trace =
          before ++ [.controllerRun ctl stopCh, .controllerReturned] ∧
        (∀ ev ∈ before, ev.isControllerRun = false ∧ ev ≠ .controllerReturned) ∧
        demoEnv.controllerRun ctl stopCh = .returned) :=
  ⟨rfl, C4_returns_zero_after_controller demoEnv emptyWorld zeroCommand [] rfl⟩

/-- C5: in every call of `Run` that gets past client setup, exactly one syncer
task is started, before the one call of `Controller.Run`; the `Syncer` of the
`ServiceResource` given to the controller is the address of the syncer whose
`Run` was started; that syncer is newly allocated by this call, it is the only
object this call allocates, and its `Client` is the Consul client returned by
the single call of `APIClient`; the controller and its resource are handed the
Kubernetes clientset and that address only. -/
theorem C5_one_syncer_shared (env : Env) (w : World) (c : Command) (args : List String)
    (config : RestConfig) (clientset : Clientset) (consulClient : ConsulClient)
    (hv : c.argsValid env args) (hs : c.setupOk env args config clientset consulClient) :
    (c.Run env w args).trace.filter Event.isGoSyncerRun =
      [.goSyncerRun w.syncers.length contextBackground] ∧
    (c.Run env w args).trace.filter Event.isControllerRun =
      [.controllerRun (builtController clientset w.syncers.length) w.chans] ∧
    (∃ before between after,
      (c.Run env w args).trace =
        before ++ [.goSyncerRun w.syncers.length contextBackground] ++ between ++
          [.controllerRun (builtController clientset w.syncers.length) w.chans] ++ after) ∧
    (builtController clientset w.syncers.length).Resource.Syncer = w.syncers.length ∧
    (builtController clientset w.syncers.length).Resource.Client = clientset ∧
    w.syncers[w.syncers.length]? = none ∧
    (c.Run env w args).world.syncers = w.syncers ++ [builtSyncer consulClient] ∧
    (c.Run env w args).world.syncers[w.syncers.length]? = some (builtSyncer consulClient) ∧
    (builtSyncer consulClient).Client = consulClient ∧
    (c.Run env w args).trace.filter Event.isApiClient =
      [.apiClient (c.parsed env args).http] := by
  obtain ⟨hc, hk, ha⟩ := hs
  rw [run_started env w c args hv config clientset consulClient hc hk ha]
  refine ⟨?_, ?_, ?_, rfl, rfl, by simp, rfl, by simp, rfl, ?_⟩
  · cases hr : env.controllerRun (builtController clientset w.syncers.length) w.chans <;>
      simp [afterController, Event.isGoSyncerRun]
  · cases hr : env.controllerRun (builtController clientset w.syncers.length) w.chans <;>
      simp [afterController, Event.isControllerRun]
  · exact ⟨[.flagParse args, .buildConfigFromFlags "" kubeconfigPath, .newForConfig config,
        .apiClient (c.parsed env args).http], [.makeChan w.chans],
      (afterController
        (env.controllerRun (builtController clientset w.syncers.length) w.chans)).1,
      by simp⟩
  · cases hr : env.controllerRun (builtController clientset w.syncers.length) w.chans <;>
      simp [afterController, Event.isApiClient]

theorem C5_witness :
    zeroCommand.argsValid demoEnv [] ∧
    zeroCommand.setupOk demoEnv [] { tag := 1 } { tag := 2 } { tag := 0 } ∧
    ((zeroCommand.Run demoEnv emptyWorld []).trace.filter Event.isGoSyncerRun =
      [.goSyncerRun emptyWorld.syncers.length contextBackground] ∧
    (zeroCommand.Run demoEnv emptyWorld []).trace.filter Event.isControllerRun =
      [.controllerRun (builtController { tag := 2 } emptyWorld.syncers.length)
        emptyWorld.chans] ∧
    (∃ before between after,
      (zeroCommand.Run demoEnv emptyWorld []).trace =
        before ++ [.goSyncerRun emptyWorld.syncers.length contextBackground] ++ between ++
          [.controllerRun (builtController { tag := 2 } emptyWorld.syncers.length)
            emptyWorld.chans] ++ after) ∧
    (builtController { tag := 2 } emptyWorld.syncers.length).Resource.Syncer =
      emptyWorld.syncers.length ∧
    (builtController { tag := 2 } emptyWorld.syncers.length).Resource.Client = { tag := 2 } ∧
    emptyWorld.syncers[emptyWorld.syncers.length]? = none ∧
    (zeroCommand.Run demoEnv emptyWorld []).world.syncers =
      emptyWorld.syncers ++ [builtSyncer { tag := 0 }] ∧
    (zeroCommand.Run demoEnv emptyWorld []).world.syncers[emptyWorld.syncers.length]? =
      some (builtSyncer { tag := 0 }) ∧
    (builtSyncer { tag := 0 }).Client = { tag := 0 } ∧
    (zeroCommand.Run demoEnv emptyWorld []).trace.filter Event.isApiClient =
      [.apiClient (zeroCommand.parsed demoEnv []).http]) :=
  ⟨⟨rfl, rfl⟩, ⟨rfl, rfl, rfl⟩,
   C5_one_syncer_shared demoEnv emptyWorld zeroCommand [] { tag := 1 } { tag := 2 } { tag := 0 }
     ⟨rfl, rfl⟩ ⟨rfl, rfl, rfl⟩⟩

/-- C3, as stated, fails: in the demo environment `Run` starts the syncer on
`context.Background()`, which has no cancel function, so it is not the case
that every context handed to a started syncer can be cancelled. -/
theorem C3_syncer_context_not_cancellable :
    ¬ (∀ syncer ctx,
        Event.goSyncerRun syncer ctx ∈ (zeroCommand.Run demoEnv emptyWorld []).trace →
        ctx.cancellable = true) := by
  intro h
  have hmem : Event.goSyncerRun 0 Context.background ∈
      (zeroCommand.Run demoEnv emptyWorld []).trace := by decide
  have := h 0 Context.background hmem
  simp [Context.cancellable, Context.cancelHandles] at this

/-- C3, amended: on every path, every syncer task that `Run` starts is given
`context.Background()`, which has no cancel function and cannot be cancelled;
the stop channel given to `Controller.Run` is made by this call (it is no
channel that existed before), and the only things `Run` does with a channel are
to make that one and to pass it to `Controller.Run`: it is never closed. -/
theorem C3_no_stop_signal_path (env : Env) (w : World) (c : Command) (args : List String) :
    (∀ syncer ctx, Event.goSyncerRun syncer ctx ∈ (c.Run env w args).trace →
      ctx = contextBackground ∧ ctx.cancelHandles = [] ∧ ctx.cancellable = false) ∧
    (∀ ctl stopCh, Event.controllerRun ctl stopCh ∈ (c.Run env w args).trace →
      stopCh = w.chans ∧
      (c.Run env w args).trace.filter Event.isChan =
        [.makeChan stopCh, .controllerRun ctl stopCh]) := by
  rcases run_cases env c args with ⟨e, he⟩ | ⟨h1, h2⟩ | ⟨hv, e, he⟩ | ⟨hv, config, e, hc, he⟩ |
    ⟨hv, config, clientset, e, hc, hk, he⟩ | ⟨hv, config, clientset, consulClient, hc, hk, ha⟩
  · rw [run_parse_error env w c args e he]; simp
  · rw [run_nonflag env w c args h1 h2]; simp
  · rw [run_config_error env w c args hv e he]; simp
  · rw [run_clientset_error env w c args hv config e hc he]; simp
  · rw [run_consul_error env w c args hv config clientset e hc hk he]; simp
  · rw [run_started env w c args hv config clientset consulClient hc hk ha]
    cases hr : env.controllerRun (builtController clientset w.syncers.length) w.chans <;>
      simp [afterController, Event.isChan, contextBackground, Context.cancelHandles,
        Context.cancellable]

/-- C6, as stated, fails: no two calls of `Run` with the same collaborators,
world and receiver hand different controllers to `Controller.Run`, whatever
their argument lists, so no worker count (nor any other value of the
configuration surface) reaches the controller. -/
theorem C6_controller_never_differs :
    ¬ ∃ (env : Env) (w : World) (c : Command) (args₁ args₂ : List String)
        (ctl₁ ctl₂ : Controller) (ch₁ ch₂ : Nat),
        Event.controllerRun ctl₁ ch₁ ∈ (c.Run env w args₁).trace ∧
        Event.controllerRun ctl₂ ch₂ ∈ (c.Run env w args₂).trace ∧
        ctl₁ ≠ ctl₂ := by
  have key : ∀ (env : Env) (w : World) (c : Command) (args : List String)
      (ctl : Controller) (ch : Nat),
      Event.controllerRun ctl ch ∈ (c.Run env w args).trace →
      ∀ config, env.buildConfigFromFlags "" kubeconfigPath = .ok config →
      ∀ clientset, env.newForConfig config = .ok clientset →
      ctl = builtController clientset w.syncers.length := by
    intro env w c args ctl ch hmem
    rcases run_cases env c args with ⟨e, he⟩ | ⟨h1, h2⟩ | ⟨hv, e, he⟩ |
      ⟨hv, config, e, hc, he⟩ | ⟨hv, config, clientset, e, hc, hk, he⟩ |
      ⟨hv, config, clientset, consulClient, hc, hk, ha⟩
    · rw [run_parse_error env w c args e he] at hmem; simp at hmem
    · rw [run_nonflag env w c args h1 h2] at hmem; simp at hmem
    · rw [run_config_error env w c args hv e he] at hmem; simp at hmem
    · rw [run_clientset_error env w c args hv config e hc he] at hmem; simp at hmem
    · rw [run_consul_error env w c args hv config clientset e hc hk he] at hmem
      simp at hmem
    · rw [run_started env w c args hv config clientset consulClient hc hk ha] at hmem
      intro config2 hc2 clientset2 hk2
      rw [hc] at hc2
      cases hc2
      rw [hk] at hk2
      cases hk2
      cases hr : env.controllerRun (builtController clientset w.syncers.length) w.chans <;>
        rw [hr] at hmem <;> simp [afterController] at hmem <;> exact hmem.1
  rintro ⟨env, w, c, args₁, args₂, ctl₁, ctl₂, ch₁, ch₂, h₁, h₂, hne⟩
  cases hc : env.buildConfigFromFlags "" kubeconfigPath with
  | error e =>
    rcases run_cases env c args₁ with ⟨e1, he⟩ | ⟨h1, h2⟩ | ⟨hv, e1, he⟩ |
      ⟨hv, config, e1, hc1, he⟩ | ⟨hv, config, clientset, e1, hc1, hk, he⟩ |
      ⟨hv, config, clientset, consulClient, hc1, hk, ha⟩
    · rw [run_parse_error env w c args₁ e1 he] at h₁; simp at h₁
    · rw [run_nonflag env w c args₁ h1 h2] at h₁; simp at h₁
    · rw [run_config_error env w c args₁ hv e1 he] at h₁; simp at h₁
    · rw [hc] at hc1; cases hc1
    · rw [hc] at hc1; cases hc1
    · rw [hc] at hc1; cases hc1
  | ok config =>
    cases hk : env.newForConfig config with
    | error e =>
      rcases run_cases env c args₁ with ⟨e1, he⟩ | ⟨h1, h2⟩ | ⟨hv, e1, he⟩ |
        ⟨hv, config1, e1, hc1, he⟩ | ⟨hv, config1, clientset, e1, hc1, hk1, he⟩ |
        ⟨hv, config1, clientset, consulClient, hc1, hk1, ha⟩
      · rw [run_parse_error env w c args₁ e1 he] at h₁; simp at h₁
      · rw [run_nonflag env w c args₁ h1 h2] at h₁; simp at h₁
      · rw [run_config_error env w c args₁ hv e1 he] at h₁; simp at h₁
      · rw [run_clientset_error env w c args₁ hv config1 e1 hc1 he] at h₁; simp at h₁
      · rw [hc] at hc1; cases hc1; rw [hk] at hk1; cases hk1
      · rw [hc] at hc1; cases hc1; rw [hk] at hk1; cases hk1
    | ok clientset =>
      exact hne ((key env w c args₁ ctl₁ ch₁ h₁ config hc clientset hk).trans
        (key env w c args₂ ctl₂ ch₂ h₂ config hc clientset hk).symm)

/-- C6, amended: `init` defines only the Consul HTTP client and server flags;
for any two argument lists that get past client setup, `Controller.Run` is
called once, on the same controller (log name "controller/service", a
`ServiceResource` with that log name, the Kubernetes clientset and the syncer
address); the syncer each call allocates has only `Client` and `Log` set, to
the Consul client of that call and the log name "syncer/consul", so the two
calls leave the same world whenever `APIClient` returned the same client. -/
theorem C6_components_ignore_configuration (env : Env) (w : World) (c : Command)
    (args₁ args₂ : List String)
    (config₁ config₂ : RestConfig) (clientset₁ clientset₂ : Clientset)
    (consul₁ consul₂ : ConsulClient)
    (hv₁ : c.argsValid env args₁) (hs₁ : c.setupOk env args₁ config₁ clientset₁ consul₁)
    (hv₂ : c.argsValid env args₂) (hs₂ : c.setupOk env args₂ config₂ clientset₂ consul₂) :
    (c.once = false →
      (c.onceDoInit env).flags.formal = env.clientFlags ++ env.serverFlags) ∧
    (c.Run env w args₁).trace.filter Event.isControllerRun =
      [.controllerRun
        { Log := .named .default "controller/service",
          Resource :=
            { Log := .named .default "controller/service",
              Client := clientset₁,
              Syncer := w.syncers.length } } w.chans] ∧
    (c.Run env w args₂).trace.filter Event.isControllerRun =
      (c.Run env w args₁).trace.filter Event.isControllerRun ∧
    (c.Run env w args₁).world.syncers =
      w.syncers ++ [{ Client := consul₁, Log := .named .default "syncer/consul" }] ∧
    (c.Run env w args₂).world.syncers =
      w.syncers ++ [{ Client := consul₂, Log := .named .default "syncer/consul" }] ∧
    (consul₁ = consul₂ → (c.Run env w args₂).world = (c.Run env w args₁).world) := by
  obtain ⟨hc₁, hk₁, ha₁⟩ := hs₁
  obtain ⟨hc₂, hk₂, ha₂⟩ := hs₂
  rw [hc₁] at hc₂
  cases hc₂
  rw [hk₁] at hk₂
  cases hk₂
  rw [run_started env w c args₁ hv₁ config₁ clientset₁ consul₁ hc₁ hk₁ ha₁,
    run_started env w c args₂ hv₂ config₁ clientset₁ consul₂ hc₁ hk₁ ha₂]
  refine ⟨?_, ?_, ?_, rfl, rfl, ?_⟩
  · intro honce
    simp [Command.onceDoInit, Command.init, honce, flagsMerge, NewFlagSet]
  · cases hr : env.controllerRun (builtController clientset₁ w.syncers.length) w.chans <;>
      simp [afterController, Event.isControllerRun, builtController, hclogDefault,
        Logger.Named]
  · cases hr : env.controllerRun (builtController clientset₁ w.syncers.length) w.chans <;>
      simp [afterController, Event.isControllerRun]
  · intro h
    rw [h]

theorem C6_witness :
    zeroCommand.argsValid demoEnv [] ∧
    zeroCommand.setupOk demoEnv [] { tag := 1 } { tag := 2 } { tag := 0 } ∧
    zeroCommand.argsValid demoEnv ["-stale"] ∧
    zeroCommand.setupOk demoEnv ["-stale"] { tag := 1 } { tag := 2 } { tag := 1 } ∧
    ((zeroCommand.once = false →
      (zeroCommand.onceDoInit demoEnv).flags.formal =
        demoEnv.clientFlags ++ demoEnv.serverFlags) ∧
    (zeroCommand.Run demoEnv emptyWorld []).trace.filter Event.isControllerRun =
      [.controllerRun
        { Log := .named .default "controller/service",
          Resource :=
            { Log := .named .default "controller/service",
              Client := { tag := 2 },
              Syncer := emptyWorld.syncers.length } } emptyWorld.chans] ∧
    (zeroCommand.Run demoEnv emptyWorld ["-stale"]).trace.filter Event.isControllerRun =
      (zeroCommand.Run demoEnv emptyWorld []).trace.filter Event.isControllerRun ∧
    (zeroCommand.Run demoEnv emptyWorld []).world.syncers =
      emptyWorld.syncers ++
        [{ Client := { tag := 0 }, Log := .named .default "syncer/consul" }] ∧
    (zeroCommand.Run demoEnv emptyWorld ["-stale"]).world.syncers =
      emptyWorld.syncers ++
        [{ Client := { tag := 1 }, Log := .named .default "syncer/consul" }] ∧
    (({ tag := 0 } : ConsulClient) = { tag := 1 } →
      (zeroCommand.Run demoEnv emptyWorld ["-stale"]).world =
        (zeroCommand.Run demoEnv emptyWorld []).world)) :=
  ⟨⟨rfl, rfl⟩, ⟨rfl, rfl, rfl⟩, ⟨by decide, by decide⟩, ⟨rfl, rfl, rfl⟩,
   C6_components_ignore_configuration demoEnv emptyWorld zeroCommand [] ["-stale"]
     { tag := 1 } { tag := 1 } { tag := 2 } { tag := 2 } { tag := 0 } { tag := 1 }
     ⟨rfl, rfl⟩ ⟨rfl, rfl, rfl⟩ ⟨by decide, by decide⟩ ⟨rfl, rfl, rfl⟩⟩

/-! ## The reconciliation pass -/

theorem applyCall_untouched (fails : CatalogCall → Bool) (catalog : Catalog)
    (call : CatalogCall) (id : String) (h : call.touches id = false)
    (e : CatalogRegistration) (he : e.ID = id) :
    e ∈ applyCall fails catalog call ↔ e ∈ catalog := by
  unfold applyCall
  split
  · rfl
  · cases call with
    | register entry =>
      simp only [CatalogCall.touches, decide_eq_false_iff_not] at h
      simp only [List.mem_append, List.mem_filter, decide_eq_true_eq, List.mem_singleton]
      constructor
      · rintro (⟨hm, _⟩ | rfl)
        · exact hm
        · exact absurd he h
      · intro hm
        exact Or.inl ⟨hm, fun heq => h (heq ▸ he)⟩
    | deregister id2 =>
      simp only [CatalogCall.touches, decide_eq_false_iff_not] at h
      simp only [List.mem_filter, decide_eq_true_eq]
      constructor
      · exact fun hm => hm.1
      · intro hm
        exact ⟨hm, fun heq => h (heq ▸ he)⟩

theorem foldl_untouched (fails : CatalogCall → Bool) (calls : List CatalogCall)
    (id : String) (h : ∀ call ∈ calls, call.touches id = false)
    (e : CatalogRegistration) (he : e.ID = id) (catalog : Catalog) :
    e ∈ calls.foldl (applyCall fails) catalog ↔ e ∈ catalog := by
  induction calls generalizing catalog with
  | nil => rfl
  | cons call rest ih =>
    simp only [List.foldl_cons]
    rw [ih (fun x hx => h x (List.mem_cons_of_mem _ hx))]
    exact applyCall_untouched fails catalog call id (h call (List.mem_cons_self _ _)) e he

theorem applyCall_no_new (fails : CatalogCall → Bool) (catalog : Catalog)
    (call : CatalogCall) (id : String) (h : ∀ entry, call = .register entry → entry.ID ≠ id)
    (e : CatalogRegistration) (he : e.ID = id) (hm : e ∈ applyCall fails catalog call) :
    e ∈ catalog := by
  unfold applyCall at hm
  split at hm
  · exact hm
  · cases call with
    | register entry =>
      simp only [List.mem_append, List.mem_filter, decide_eq_true_eq,
        List.mem_singleton] at hm
      rcases hm with ⟨hm, _⟩ | rfl
      · exact hm
      · exact absurd he (h e rfl)
    | deregister id2 =>
      simp only [List.mem_filter, decide_eq_true_eq] at hm
      exact hm.1

theorem foldl_no_new (fails : CatalogCall → Bool) (calls : List CatalogCall)
    (id : String) (h : ∀ entry, CatalogCall.register entry ∈ calls → entry.ID ≠ id)
    (e : CatalogRegistration) (he : e.ID = id) (catalog : Catalog)
    (hm : e ∈ calls.foldl (applyCall fails) catalog) : e ∈ catalog := by
  induction calls generalizing catalog with
  | nil => exact hm
  | cons call rest ih =>
    simp only [List.foldl_cons] at hm
    have h1 := ih (fun entry hx => h entry (List.mem_cons_of_mem _ hx)) _ hm
    exact applyCall_no_new fails catalog call id
      (fun entry hx => h entry (hx ▸ List.mem_cons_self _ _)) e he h1

theorem foldl_deregistered (fails : CatalogCall → Bool) (calls : List CatalogCall)
    (id : String) (hd : CatalogCall.deregister id ∈ calls)
    (hok : fails (.deregister id) = false)
    (h : ∀ entry, CatalogCall.register entry ∈ calls → entry.ID ≠ id)
    (catalog : Catalog) :
    ∀ e ∈ calls.foldl (applyCall fails) catalog, e.ID ≠ id := by
  induction calls generalizing catalog with
  | nil => simp at hd
  | cons call rest ih =>
    intro e hm heq
    simp only [List.foldl_cons] at hm
    have hrest : ∀ entry, CatalogCall.register entry ∈ rest → entry.ID ≠ id :=
      fun entry hx => h entry (List.mem_cons_of_mem _ hx)
    rcases List.mem_cons.mp hd with hhead | htail
    · have h1 := foldl_no_new fails rest id hrest e heq _ hm
      rw [← hhead] at h1
      simp only [applyCall, hok, Bool.false_eq_true, if_false, List.mem_filter,
        decide_eq_true_eq] at h1
      exact h1.2 heq
    · exact ih htail hrest _ e hm heq

theorem register_mem_passCalls (serviceID : String → String) (desired : DesiredState)
    (catalog : Catalog) (entry : CatalogRegistration)
    (h : CatalogCall.register entry ∈ passCalls serviceID desired catalog) :
    (∃ kv ∈ desired, entry = desiredEntry serviceID kv) ∧ conflicts catalog entry.ID = false := by
  simp only [passCalls, List.mem_append, List.mem_map, CatalogCall.register.injEq,
    exists_eq_right, reduceCtorEq, and_false, exists_false, or_false] at h
  simp only [registrations, List.mem_filter, List.mem_map, Bool.and_eq_true,
    Bool.not_eq_true', decide_eq_false_iff_not] at h
  obtain ⟨⟨kv, hkv, rfl⟩, _, hconf⟩ := h
  exact ⟨⟨kv, hkv, rfl⟩, hconf⟩

theorem deregister_mem_passCalls (serviceID : String → String) (desired : DesiredState)
    (catalog : Catalog) (id : String) :
    CatalogCall.deregister id ∈ passCalls serviceID desired catalog ↔
      ∃ e ∈ catalog, e.ownerMarker = true ∧ (∀ kv ∈ desired, serviceID kv.1 ≠ e.ID) ∧
        e.ID = id := by
  simp only [passCalls, List.mem_append, List.mem_map, reduceCtorEq, and_false, exists_false,
    false_or, CatalogCall.deregister.injEq, exists_eq_right]
  simp only [deregistrations, actualSnapshot, List.mem_map, List.mem_filter,
    Bool.not_eq_true', List.any_eq_false, decide_eq_true_eq]
  constructor
  · rintro ⟨e, ⟨⟨he, hown⟩, hno⟩, rfl⟩
    exact ⟨e, he, hown, fun kv hkv => hno kv hkv, rfl⟩
  · rintro ⟨e, he, hown, hno, rfl⟩
    exact ⟨e, ⟨⟨he, hown⟩, fun kv hkv => hno kv hkv⟩, rfl⟩

/-- C7: in a reconciliation pass over a catalog with one entry per ID, an entry
lacking the ownership marker is never the target of a deregister call and is in
the catalog after the pass, unchanged and alone under its ID, whether or not a
desired key matches it and whichever calls fail; an owner-marked entry with no
corresponding desired key is the target of a deregister call of the pass and,
unless that call fails, no entry with its ID is left after the pass. -/
theorem C7_pass_respects_ownership (fails : CatalogCall → Bool)
    (serviceID : String → String) (desired : DesiredState) (catalog : Catalog)
    (hids : (catalog.map (fun e => e.ID)).Nodup) :
    (∀ e ∈ catalog, e.ownerMarker = false →
      CatalogCall.deregister e.ID ∉ passCalls serviceID desired catalog ∧
      e ∈ reconcilePass fails serviceID desired catalog ∧
      ∀ e2 ∈ reconcilePass fails serviceID desired catalog, e2.ID = e.ID → e2 = e) ∧
    (∀ e ∈ catalog, e.ownerMarker = true → (∀ kv ∈ desired, serviceID kv.1 ≠ e.ID) →
      CatalogCall.deregister e.ID ∈ passCalls serviceID desired catalog ∧
      (fails (.deregister e.ID) = false →
        ∀ e2 ∈ reconcilePass fails serviceID desired catalog, e2.ID ≠ e.ID)) := by
  have hinj := List.inj_on_of_nodup_map hids
  constructor
  · intro e he hown
    have hnotd : CatalogCall.deregister e.ID ∉ passCalls serviceID desired catalog := by
      intro hd
      obtain ⟨e2, he2, hown2, _, hid⟩ :=
        (deregister_mem_passCalls serviceID desired catalog e.ID).mp hd
      have heq : e2 = e := hinj he2 he hid
      rw [heq, hown] at hown2
      cases hown2
    have huntouched : ∀ call ∈ passCalls serviceID desired catalog,
        call.touches e.ID = false := by
      intro call hcall
      cases call with
      | register entry =>
        have hconf := (register_mem_passCalls serviceID desired catalog entry hcall).2
        simp only [conflicts, List.any_eq_false, Bool.and_eq_true, decide_eq_true_eq,
          Bool.not_eq_true', not_and, Bool.not_eq_false] at hconf
        simp only [CatalogCall.touches, decide_eq_false_iff_not]
        intro hid
        have := hconf e he hid.symm
        rw [hown] at this
        cases this
      | deregister id2 =>
        simp only [CatalogCall.touches, decide_eq_false_iff_not]
        intro hid
        exact hnotd (hid ▸ hcall)
    refine ⟨hnotd, ?_, ?_⟩
    · exact (foldl_untouched fails _ e.ID huntouched e rfl catalog).mpr he
    · intro e2 he2 hid
      have := (foldl_untouched fails _ e.ID huntouched e2 hid catalog).mp he2
      exact hinj this he hid
  · intro e he hown hno
    have hd : CatalogCall.deregister e.ID ∈ passCalls serviceID desired catalog :=
      (deregister_mem_passCalls serviceID desired catalog e.ID).mpr ⟨e, he, hown, hno, rfl⟩
    refine ⟨hd, fun hok => ?_⟩
    refine foldl_deregistered fails _ e.ID hd hok ?_ catalog
    intro entry hentry
    obtain ⟨⟨kv, hkv, rfl⟩, _⟩ := register_mem_passCalls serviceID desired catalog entry hentry
    exact hno kv hkv

theorem C7_witness :
    (demoCatalog.map (fun e => e.ID)).Nodup ∧
    ((∀ e ∈ demoCatalog, e.ownerMarker = false →
      CatalogCall.deregister e.ID ∉ passCalls demoServiceID demoDesired demoCatalog ∧
      e ∈ reconcilePass (fun _ => false) demoServiceID demoDesired demoCatalog ∧
      ∀ e2 ∈ reconcilePass (fun _ => false) demoServiceID demoDesired demoCatalog,
        e2.ID = e.ID → e2 = e) ∧
    (∀ e ∈ demoCatalog, e.ownerMarker = true →
      (∀ kv ∈ demoDesired, demoServiceID kv.1 ≠ e.ID) →
      CatalogCall.deregister e.ID ∈ passCalls demoServiceID demoDesired demoCatalog ∧
      ((fun _ => false) (CatalogCall.deregister e.ID) = false →
        ∀ e2 ∈ reconcilePass (fun _ => false) demoServiceID demoDesired demoCatalog,
          e2.ID ≠ e.ID))) :=
  ⟨by decide,
   C7_pass_respects_ownership (fun _ => false) demoServiceID demoDesired demoCatalog
     (by decide)⟩

end SyncCatalog
